import Mathlib

/-!
Verification of the Pulse media-processing pipeline against its specification.

The definitions below are a shallow embedding of the JavaScript source:

* `src/backend/services/sensitivityAnalysis.js` — the sensitivity classifier
  (thresholds, overall score, flag decision, reasons) and the analysis stage
  of the pipeline (`analyzeVideo`, `reanalyzeVideo`);
* `src/backend/services/videoProcessing.js` — the processing stages
  (`processVideo`) and the metadata probe (`getVideoMetadata`, `parseFps`);
* `src/backend/services/streaming.js` — the byte-range streamer
  (`streamVideo`, `downloadVideo`, `getContentType`);
* `src/unnamed/part_012` — the mongoose video model (`updateProgress`,
  `isAccessibleBy`, `getPermissionLevel`) and the controllers
  (`processVideoAsync`, `streamVideo`, `downloadVideo`, `reanalyzeVideo`).

JavaScript numbers are modeled as `Nat`/`Int`/`Rat` with `NaN` represented by
`Option` where a computation can produce it; `undefined` vs `null` is kept
apart where the source distinguishes them (the probe's failure record).
Stateful code (the pipeline mutating one mongoose document and calling
`save()` / the socket emitter) is modeled by explicit state passing: a run
returns the final in-memory document together with a trace of actions, where
`Action.persist d` records a successful `save()` of snapshot `d` and
`Action.publish e` records one socket emission.  Failure injection (a stage
throwing, a `save()` rejecting) is an explicit parameter of a run, so that
the pipeline's `try`/`catch` structure is reproduced faithfully.
-/

set_option maxRecDepth 16384

namespace Pulse

/-! ## Sensitivity classifier (`sensitivityAnalysis.js`) -/

/-- One per-category analysis result: `{ score: Number, detected: Boolean }`. -/
structure CatResult where
  score : ℕ
  detected : Bool
deriving DecidableEq, Repr

/-- The five-category analysis record produced by `performAnalysis` and
consumed by `calculateOverallScore` / `determineSensitivityStatus` /
`generateReasons`.  JavaScript object-literal key order (violence, adult,
hate, drugs, language) is the iteration order of `Object.entries` /
`Object.values` in the source and is preserved here. -/
structure SensDetails where
  violence : CatResult
  adult : CatResult
  hate : CatResult
  drugs : CatResult
  language : CatResult
deriving DecidableEq, Repr

/-- Raw category scores (the only analysis input that varies); the service's
`performAnalysis` draws them randomly, so runs are parametrized by them. -/
structure CatScores where
  violence : ℕ
  adult : ℕ
  hate : ℕ
  drugs : ℕ
  language : ℕ
deriving DecidableEq, Repr

/-- `performAnalysis` returns every category with `detected: false`. -/
def initDetails (cs : CatScores) : SensDetails :=
  { violence := ⟨cs.violence, false⟩
    adult := ⟨cs.adult, false⟩
    hate := ⟨cs.hate, false⟩
    drugs := ⟨cs.drugs, false⟩
    language := ⟨cs.language, false⟩ }

/-- Per-category thresholds from the service constructor:
`{violence: 70, adult: 70, hate: 60, drugs: 60, language: 80}`. -/
structure Thresholds where
  violence : ℕ
  adult : ℕ
  hate : ℕ
  drugs : ℕ
  language : ℕ

/-- `this.thresholds` of `SensitivityAnalysisService`. -/
def thresholds : Thresholds :=
  { violence := 70, adult := 70, hate := 60, drugs := 60, language := 80 }

/-- `this.overallThreshold` of `SensitivityAnalysisService`. -/
def overallThreshold : ℤ := 65

/-- `Object.values(results).map(r => r.score)` in declaration order. -/
def scoresList (r : SensDetails) : List ℕ :=
  [r.violence.score, r.adult.score, r.hate.score, r.drugs.score, r.language.score]

/-- JavaScript `Math.round`: round half away from zero for positive inputs,
i.e. `Math.round(x) = ⌊x + 0.5⌋` (exact on the nonnegative rationals that
arise here).  The source computes with IEEE doubles; for integer scores in
`[0,100]` the exact value `(15*max + 2*sum)/25` is never closer than `1/50`
to a rounding boundary while the double-arithmetic error is below `1e-12`,
so integer-rounded results agree with this exact-rational model. -/
def jsRound (q : ℚ) : ℤ := ⌊q + 1/2⌋

/-- `calculateOverallScore`:
`Math.round((maxScore * 0.6) + (avgScore * 0.4))` where `maxScore` is the
largest category score and `avgScore = sum / scores.length`. -/
def calculateOverallScore (r : SensDetails) : ℤ :=
  let scores := scoresList r
  let maxScore : ℕ := scores.foldr max 0
  let avgScore : ℚ := ((scores.sum : ℚ)) / (scores.length : ℚ)
  jsRound ((maxScore : ℚ) * (6/10) + avgScore * (4/10))

/-- Sensitivity verdict values of `video.sensitivityStatus`. -/
inductive SStatus
  | pending
  | safe
  | flagged
  | error
deriving DecidableEq, Repr

/-- `determineSensitivityStatus(results, overallScore)`: walks the categories
in declaration order; the first category whose score meets its threshold has
its `detected` flag set and the function returns `'flagged'` immediately
(later exceeding categories keep `detected = false`).  Otherwise `'flagged'`
iff `overallScore >= this.overallThreshold`, else `'safe'`.  Returns the
verdict together with the (possibly mutated) results object, since the
source mutates `results` in place and the caller stores that object. -/
def determineSensitivityStatus (r : SensDetails) (overallScore : ℤ) :
    SStatus × SensDetails :=
  if thresholds.violence ≤ r.violence.score then
    (.flagged, { r with violence := { r.violence with detected := true } })
  else if thresholds.adult ≤ r.adult.score then
    (.flagged, { r with adult := { r.adult with detected := true } })
  else if thresholds.hate ≤ r.hate.score then
    (.flagged, { r with hate := { r.hate with detected := true } })
  else if thresholds.drugs ≤ r.drugs.score then
    (.flagged, { r with drugs := { r.drugs with detected := true } })
  else if thresholds.language ≤ r.language.score then
    (.flagged, { r with language := { r.language with detected := true } })
  else if overallThreshold ≤ overallScore then (.flagged, r)
  else (.safe, r)

/-- One reason line: `` `${label} detected (score: ${score})` ``. -/
def reasonLine (label : String) (score : ℕ) : String :=
  label ++ " detected (score: " ++ toString score ++ ")"

/-- `generateReasons(results)`: one line per category (declaration order)
with `data.detected || data.score >= this.thresholds[category]`. -/
def generateReasons (r : SensDetails) : List String :=
  (if r.violence.detected || thresholds.violence ≤ r.violence.score then
    [reasonLine "Violent content" r.violence.score] else []) ++
  (if r.adult.detected || thresholds.adult ≤ r.adult.score then
    [reasonLine "Adult content" r.adult.score] else []) ++
  (if r.hate.detected || thresholds.hate ≤ r.hate.score then
    [reasonLine "Hate speech or symbols" r.hate.score] else []) ++
  (if r.drugs.detected || thresholds.drugs ≤ r.drugs.score then
    [reasonLine "Drug-related content" r.drugs.score] else []) ++
  (if r.language.detected || thresholds.language ≤ r.language.score then
    [reasonLine "Explicit language" r.language.score] else [])

/-- The maximum category score, as the specification phrases it. -/
def maxCatScore (r : SensDetails) : ℕ := (scoresList r).foldr max 0

/-- The mean of the five category scores, as the specification phrases it. -/
def meanCatScore (r : SensDetails) : ℚ := ((scoresList r).sum : ℚ) / 5

/-! ## Pipeline state and traces (`videoProcessing.js`, `sensitivityAnalysis.js`, controllers) -/

/-- `video.status` enum of the mongoose schema. -/
inductive VStatus
  | uploading
  | processing
  | analyzing
  | completed
  | failed
deriving DecidableEq, Repr

/-- The pipeline-relevant fields of one video document.  Fields the pipeline
never reads or writes (title, tags, access-control lists, timestamps, view
counter) are omitted; they do not influence any claim about the pipeline. -/
structure VideoDoc where
  id : ℕ
  status : VStatus
  processingProgress : ℕ
  processingMessage : String
  errorMessage : Option String
  sensitivityStatus : SStatus
  sensitivityScore : Option ℤ
  sensitivityDetails : Option SensDetails
  sensitivityReasons : List String
  duration : Option ℚ
  resolutionWidth : Option ℕ
  resolutionHeight : Option ℕ
  thumbnail : Option String
  streamingUrl : Option String
deriving DecidableEq, Repr

/-- Socket events emitted by the pipeline, with their payload fields. -/
inductive Event
  | processingUpdate (videoId : ℕ) (progress : ℕ) (message : String) (status : VStatus)
  | sensitivityStart (videoId : ℕ)
  | sensitivityComplete (videoId : ℕ) (status : SStatus) (score : ℤ)
      (details : SensDetails) (reasons : List String)
  | videoReady (videoId : ℕ)
  | processingError (videoId : ℕ) (error : String)
deriving DecidableEq, Repr

/-- One observable pipeline action: a socket emission or a successful
`save()` of the in-memory document (the snapshot saved is recorded). -/
inductive Action
  | publish (e : Event)
  | persist (d : VideoDoc)
deriving DecidableEq, Repr

/-- The ordered list of actions performed by a run. -/
abbrev Trace := List Action

/-- `videoSchema.methods.updateProgress(progress, message, status)`: mutates
the three fields and saves.  Every call site passes a nonempty message and a
status, so the source's `if (message)` / `if (status)` guards always fire. -/
def updateProgressDoc (d : VideoDoc) (progress : ℕ) (message : String)
    (status : VStatus) : VideoDoc :=
  { d with
    processingProgress := progress
    processingMessage := message
    status := status }

/-- Outcome injection for the analysis stage (`analyzeVideo`): the run
completes, the classifier (or an earlier awaited step inside the `try`)
throws `msg`, or the completion `save()` rejects with `msg`. -/
inductive AnalyzeFate
  | ok
  | classifierThrow (msg : String)
  | completionSaveFail (msg : String)
deriving DecidableEq, Repr

/-- Outcome injection for the whole background job (`processVideoAsync`):
the processing stage succeeds and analysis proceeds with the given fate, the
source file is missing at validation, or the first `updateProgress` save
rejects with `msg` (a persistence failure in the processing stage). -/
inductive PipelineFate
  | run (af : AnalyzeFate)
  | fileMissing
  | progressSaveFail (msg : String)
deriving DecidableEq, Repr

/-- Values merged from the metadata probe (`video.duration`,
`video.resolution`). -/
structure ProbeVals where
  duration : Option ℚ
  width : Option ℕ
  height : Option ℕ
deriving DecidableEq, Repr

/-- `sensitivityAnalysisService.analyzeVideo(video, socketEmitter)` as a
trace-producing run.  Returns the final in-memory document, the trace, and
`some msg` when the stage re-throws `msg` (its `catch` block persists the
failure and emits `processing:error` before rethrowing). -/
def analyzeVideoRun (af : AnalyzeFate) (cs : CatScores) (d : VideoDoc) :
    VideoDoc × Trace × Option String :=
  let d1 := updateProgressDoc d 92 "Analyzing content for sensitivity..." .analyzing
  let t1 : Trace := [.publish (.sensitivityStart d.id),
    .publish (.processingUpdate d.id 92 "Analyzing content for sensitivity..." .analyzing),
    .persist d1]
  match af with
  | .classifierThrow msg =>
    let d2 := { d1 with
      sensitivityStatus := SStatus.error
      status := VStatus.failed
      errorMessage := some msg }
    (d2, t1 ++ [.persist d2, .publish (.processingError d.id msg)], some msg)
  | .ok =>
    let results := initDetails cs
    let overall := calculateOverallScore results
    let sr := determineSensitivityStatus results overall
    let reasons := generateReasons sr.2
    let finalMsg := if sr.1 = SStatus.safe then
        "Video processed successfully - Content is safe"
      else "Video processed - Content flagged for review"
    let d2 := { d1 with
      sensitivityDetails := some sr.2
      sensitivityScore := some overall
      sensitivityStatus := sr.1
      sensitivityReasons := reasons
      status := VStatus.completed
      processingProgress := 100
      processingMessage := finalMsg }
    (d2, t1 ++
      [.publish (.processingUpdate d.id 96 "Generating sensitivity report..." .analyzing),
       .persist d2,
       .publish (.processingUpdate d.id 100 finalMsg .completed),
       .publish (.sensitivityComplete d.id sr.1 overall sr.2 reasons),
       .publish (.videoReady d.id)], none)
  | .completionSaveFail msg =>
    let results := initDetails cs
    let overall := calculateOverallScore results
    let sr := determineSensitivityStatus results overall
    let reasons := generateReasons sr.2
    let finalMsg := if sr.1 = SStatus.safe then
        "Video processed successfully - Content is safe"
      else "Video processed - Content flagged for review"
    let d2 := { d1 with
      sensitivityDetails := some sr.2
      sensitivityScore := some overall
      sensitivityStatus := sr.1
      sensitivityReasons := reasons
      status := VStatus.completed
      processingProgress := 100
      processingMessage := finalMsg }
    let d3 := { d2 with
      sensitivityStatus := SStatus.error
      status := VStatus.failed
      errorMessage := some msg }
    (d3, t1 ++
      [.publish (.processingUpdate d.id 96 "Generating sensitivity report..." .analyzing),
       .persist d3, .publish (.processingError d.id msg)], some msg)

/-- `videoProcessingService.processVideo(video, socketEmitter)` as a
trace-producing run.  Returns `some msg` when the stage throws (its own
`catch` only logs and rethrows, so no actions are added there). -/
def processVideoRun (pf : PipelineFate) (meta : ProbeVals)
    (thumb : Option String) (d : VideoDoc) : VideoDoc × Trace × Option String :=
  let pub10 : Action := .publish (.processingUpdate d.id 10 "Validating file..." .processing)
  let d1 := updateProgressDoc d 10 "Validating file..." .processing
  match pf with
  | .progressSaveFail msg => (d1, [pub10], some msg)
  | .fileMissing => (d1, [pub10, .persist d1], some "Video file not found")
  | .run _ =>
    let d2 := updateProgressDoc d1 30 "Extracting metadata..." .processing
    let d3 := { d2 with
      duration := meta.duration
      resolutionWidth := meta.width
      resolutionHeight := meta.height }
    let d4 := updateProgressDoc d3 50 "Generating thumbnail..." .processing
    let d5 := match thumb with
      | some p => { d4 with thumbnail := some p }
      | none => d4
    let d6 := updateProgressDoc d5 70 "Preparing for streaming..." .analyzing
    let d7 := { d6 with
      streamingUrl := some ("/api/videos/" ++ toString d.id ++ "/stream") }
    let d8 := updateProgressDoc d7 90 "Finalizing..." .analyzing
    (d8, [pub10, .persist d1,
      .publish (.processingUpdate d.id 30 "Extracting metadata..." .processing),
      .persist d2,
      .publish (.processingUpdate d.id 50 "Generating thumbnail..." .processing),
      .persist d4,
      .publish (.processingUpdate d.id 70 "Preparing for streaming..." .analyzing),
      .persist d6,
      .publish (.processingUpdate d.id 90 "Finalizing..." .analyzing),
      .persist d8], none)

/-- `processVideoAsync(video, socketEmitter)` from the video controller: the
processing stage, then the analysis stage, with the top-level `catch` that
sets `status = failed`, `errorMessage`, and
`processingMessage = "Processing failed: <cause>"`, saves, and emits one
`processing:error` event. -/
def processVideoAsyncRun (pf : PipelineFate) (meta : ProbeVals)
    (thumb : Option String) (cs : CatScores) (d : VideoDoc) : VideoDoc × Trace :=
  let pr := processVideoRun pf meta thumb d
  match pr.2.2 with
  | some msg =>
    let df := { pr.1 with
      status := VStatus.failed
      errorMessage := some msg
      processingMessage := "Processing failed: " ++ msg }
    (df, pr.2.1 ++ [.persist df, .publish (.processingError d.id msg)])
  | none =>
    let af := match pf with
      | .run a => a
      | _ => .ok
    let ar := analyzeVideoRun af cs pr.1
    match ar.2.2 with
    | none => (ar.1, pr.2.1 ++ ar.2.1)
    | some msg =>
      let df := { ar.1 with
        status := VStatus.failed
        errorMessage := some msg
        processingMessage := "Processing failed: " ++ msg }
      (df, pr.2.1 ++ ar.2.1 ++ [.persist df, .publish (.processingError d.id msg)])

/-- `sensitivityAnalysisService.reanalyzeVideo(videoId, socketEmitter)`:
resets `sensitivityStatus` to pending, `status` to analyzing, progress to
90, saves, then calls `analyzeVideo`.  Its caller (the reanalyze controller)
only logs a rejection, so no outer failure handler runs here. -/
def reanalyzeRun (af : AnalyzeFate) (cs : CatScores) (d : VideoDoc) :
    VideoDoc × Trace :=
  let d0 := { d with
    sensitivityStatus := SStatus.pending
    status := VStatus.analyzing
    processingProgress := 90 }
  let ar := analyzeVideoRun af cs d0
  (ar.1, .persist d0 :: ar.2.1)

/-- The document created by the upload controller (`Video.create`):
`status: 'uploading'`, `processingProgress: 5`, everything else default. -/
def initDoc (id : ℕ) : VideoDoc :=
  { id := id
    status := VStatus.uploading
    processingProgress := 5
    processingMessage := "Upload complete, starting processing..."
    errorMessage := none
    sensitivityStatus := SStatus.pending
    sensitivityScore := none
    sensitivityDetails := none
    sensitivityReasons := []
    duration := none
    resolutionWidth := none
    resolutionHeight := none
    thumbnail := none
    streamingUrl := none }

/-- The document snapshots successfully written to the store during a run. -/
def persistedDocs (t : Trace) : List VideoDoc :=
  t.filterMap fun a => match a with
    | .persist d => some d
    | .publish _ => none

/-- How many `processing:error` events a trace publishes. -/
def errorEventCount (t : Trace) : ℕ :=
  t.countP fun a => match a with
    | .publish (.processingError _ _) => true
    | _ => false

/-- Recognizes the progress event published for checkpoint `c`. -/
def isProgressPublish (c : ℕ) : Action → Bool
  | .publish (.processingUpdate _ p _ _) => p == c
  | _ => false

/-- Recognizes a store write whose snapshot carries progress `c`. -/
def isPersistAt (c : ℕ) : Action → Bool
  | .persist d => d.processingProgress == c
  | _ => false

/-- Index of the first action satisfying `p` (length if none). -/
def idxOfP (p : Action → Bool) : Trace → ℕ
  | [] => 0
  | a :: t => if p a then 0 else idxOfP p t + 1

/-- Store states reachable by sequences of pipeline operations: the freshly
created upload document, every snapshot persisted by a background processing
run (any failure injection), and every snapshot persisted by a reanalysis
run — runs may start from any reachable state, which over-approximates the
orderings the deployed system can exhibit. -/
inductive Reachable : VideoDoc → Prop
  | init (id : ℕ) : Reachable (initDoc id)
  | run {d d' : VideoDoc} (pf : PipelineFate) (meta : ProbeVals)
      (thumb : Option String) (cs : CatScores) : Reachable d →
      d' ∈ persistedDocs (processVideoAsyncRun pf meta thumb cs d).2 →
      Reachable d'
  | rerun {d d' : VideoDoc} (af : AnalyzeFate) (cs : CatScores) : Reachable d →
      d' ∈ persistedDocs (reanalyzeRun af cs d).2 → Reachable d'

/-! ## Demo data for concrete runs -/

/-- Concrete all-low category scores for concrete runs. -/
def demoScores : CatScores := ⟨10, 10, 10, 10, 10⟩

/-- Concrete probe values for concrete runs. -/
def demoMeta : ProbeVals := ⟨some 12, some 1920, some 1080⟩

/-- The trace of a fully successful background run on a fresh upload. -/
def demoTrace : Trace :=
  (processVideoAsyncRun (.run .ok) demoMeta (some "thumb.jpg") demoScores (initDoc 1)).2

/-- The final document of a fully successful background run. -/
def demoCompletedDoc : VideoDoc :=
  (processVideoAsyncRun (.run .ok) demoMeta (some "thumb.jpg") demoScores (initDoc 1)).1

/-- The final document of a run whose completion `save()` failed. -/
def failedAt100Doc : VideoDoc :=
  (processVideoAsyncRun (.run (.completionSaveFail "Database connection lost"))
    demoMeta (some "thumb.jpg") demoScores (initDoc 1)).1

/-! ## Progress/status invariant predicate -/

/-- The corrected progress/status relationship: a completed document always
carries progress 100, and a document carrying progress 100 is completed or
failed (the latter only via fatal-failure handling after the completion
fields were already set in memory). -/
def ProgressStatusInv (d : VideoDoc) : Prop :=
  (d.status = VStatus.completed → d.processingProgress = 100) ∧
  (d.processingProgress = 100 →
    d.status = VStatus.completed ∨ d.status = VStatus.failed)

/-! ## Metadata probe (`getVideoMetadata`, `parseFps` in `videoProcessing.js`) -/

/-- A JavaScript object field that can be absent (`undefined`), `null`, or a
value.  The probe's failure record `{duration: null, width: null, height:
null, bitrate: null, codec: null}` has `null` fields but no `fps` key, so
reading `fps` there yields `undefined` — the embedding keeps the two apart. -/
inductive JsVal (α : Type)
  | undef
  | null
  | val (a : α)
deriving DecidableEq, Repr

/-- The `fps` field: absent, `null`, `NaN`, or a number. -/
inductive FpsVal
  | missing
  | null
  | nan
  | num (q : ℚ)
deriving DecidableEq, Repr

/-- Digit characters read as a base-10 natural number. -/
def digitsToNat (cs : List Char) : ℕ :=
  cs.foldl (fun a c => a * 10 + (c.toNat - 48)) 0

/-- JavaScript `Number(s)` on the strings that appear in `r_frame_rate`
rationals: the empty/whitespace string is 0, a signed decimal-integer
literal is its value, anything else is `NaN` (`none`).  Fractional,
hexadecimal and exponent literals are not modeled; ffprobe frame rates are
`integer/integer` strings. -/
def jsNumber (s : String) : Option ℚ :=
  let t := s.trim
  if t = "" then some 0
  else
    let signed : ℚ × List Char :=
      match t.toList with
      | '-' :: rest => (-1, rest)
      | '+' :: rest => (1, rest)
      | cs => (1, cs)
    if signed.2 ≠ [] ∧ signed.2.all (fun c => c.isDigit) then
      some (signed.1 * (digitsToNat signed.2 : ℚ))
    else none

/-- `parseFps(fpsString)`: `null` for a falsy argument; otherwise splits on
`/`, converts both pieces with `Number` (a missing second piece is
`Number(undefined) = NaN`), and returns `den ? Math.round(num / den) : num`
— a falsy denominator (absent, `NaN`, or 0) falls back to the numerator,
which itself may be `NaN`. -/
def parseFps (fpsString : Option String) : FpsVal :=
  match fpsString with
  | none => .null
  | some s =>
    if s = "" then .null
    else
      let pieces := s.splitOn "/"
      let num := jsNumber (pieces.headD "")
      let den : Option ℚ :=
        match pieces.get? 1 with
        | none => none
        | some t => jsNumber t
      match den with
      | some dv =>
        if dv = 0 then
          match num with
          | some n => .num n
          | none => .nan
        else
          match num with
          | some n => .num ((jsRound (n / dv) : ℤ) : ℚ)
          | none => .nan
      | none =>
        match num with
        | some n => .num n
        | none => .nan

/-- The video stream entry of parsed ffprobe output, after the JavaScript
field reads: optional `width`/`height` numbers, `codec_name`,
`r_frame_rate`. -/
structure RawStream where
  width : Option ℕ
  height : Option ℕ
  codecName : Option String
  rFrameRate : Option String
deriving DecidableEq, Repr

/-- Parsed ffprobe JSON, after the numeric conversions at the use sites:
`formatDuration` is the `parseFloat(format?.duration)` result (`none` for
`NaN`, i.e. absent or unparseable), `formatBitRate` the
`parseInt(format?.bit_rate)` result, and `videoStream` the first stream
with `codec_type === 'video'` (if any). -/
structure RawMeta where
  formatDuration : Option ℚ
  formatBitRate : Option ℤ
  videoStream : Option RawStream
deriving DecidableEq, Repr

/-- The record `getVideoMetadata` resolves with. -/
structure ProbeResult where
  duration : JsVal ℚ
  width : JsVal ℕ
  height : JsVal ℕ
  bitrate : JsVal ℤ
  codec : JsVal String
  fps : FpsVal
deriving DecidableEq, Repr

/-- JavaScript `x || null` for an optional number (`0` and `NaN`/absent are
falsy). -/
def qOrNull (v : Option ℚ) : JsVal ℚ :=
  match v with
  | none => .null
  | some q => if q = 0 then .null else .val q

/-- JavaScript `x || null` for an optional natural number. -/
def natOrNull (v : Option ℕ) : JsVal ℕ :=
  match v with
  | none => .null
  | some n => if n = 0 then .null else .val n

/-- JavaScript `x || null` for an optional integer. -/
def intOrNull (v : Option ℤ) : JsVal ℤ :=
  match v with
  | none => .null
  | some n => if n = 0 then .null else .val n

/-- JavaScript `x || null` for an optional string (the empty string is
falsy). -/
def strOrNull (v : Option String) : JsVal String :=
  match v with
  | none => .null
  | some s => if s = "" then .null else .val s

/-- How one `ffprobe` invocation ends: the `error` event fires (tool
missing), or the `close` event fires with an exit `code` (`null` exit codes
of signal-killed processes behave like any nonzero value under
`code !== 0`) and stdout that either parses (`some`) or makes `JSON.parse`
throw (`none`). -/
inductive ProbeEvent
  | spawnError
  | close (code : ℤ) (parsed : Option RawMeta)
deriving DecidableEq, Repr

/-- The literal failure record
`{duration: null, width: null, height: null, bitrate: null, codec: null}`
resolved on every failure path — note the absent `fps` key. -/
def failureMetadata : ProbeResult :=
  { duration := .null, width := .null, height := .null, bitrate := .null,
    codec := .null, fps := .missing }

/-- `getVideoMetadata(filepath)` as a function of the probe outcome.  The
promise always resolves (never rejects), so the embedding is a total
function into `ProbeResult`. -/
def getVideoMetadata : ProbeEvent → ProbeResult
  | .spawnError => failureMetadata
  | .close code parsed =>
    if code ≠ 0 then failureMetadata
    else
      match parsed with
      | none => failureMetadata
      | some m =>
        { duration := qOrNull m.formatDuration
          width := natOrNull (m.videoStream.bind (fun s => s.width))
          height := natOrNull (m.videoStream.bind (fun s => s.height))
          bitrate := intOrNull m.formatBitRate
          codec := strOrNull (m.videoStream.bind (fun s => s.codecName))
          fps := parseFps (m.videoStream.bind (fun s => s.rFrameRate)) }

/-- The probe outcomes the specification calls failures: tool missing,
non-zero exit, malformed (unparseable) output. -/
def probeFailed : ProbeEvent → Prop
  | .spawnError => True
  | .close code parsed => code ≠ 0 ∨ parsed = none

/-! ## Byte-range streaming (`streaming.js`) -/

/-- Decimal-digit prefix of a character list, as a number (`none` if there
is no digit). -/
def digitsPrefixVal (cs : List Char) : Option ℕ :=
  let ds := cs.takeWhile (fun c => c.isDigit)
  if ds.isEmpty then none else some (digitsToNat ds)

/-- `parseInt(s, 10)` on a character list: skips leading whitespace,
accepts one optional sign, then reads the longest digit prefix; `none`
models `NaN`. -/
def jsParseInt (s : List Char) : Option ℤ :=
  let cs := s.dropWhile (fun c => c.isWhitespace)
  match cs with
  | '-' :: rest => (digitsPrefixVal rest).map (fun n => -(n : ℤ))
  | '+' :: rest => (digitsPrefixVal rest).map (fun n => (n : ℤ))
  | _ => (digitsPrefixVal cs).map (fun n => (n : ℤ))

/-- Removal of the first occurrence of `pat` from a character list — the
effect of a non-global `String.prototype.replace` with an empty
replacement. -/
def removeFirst (pat : List Char) : List Char → List Char
  | [] => []
  | c :: rest =>
    if pat.isPrefixOf (c :: rest) then rest.drop (pat.length - 1)
    else c :: removeFirst pat rest

/-- JavaScript `String.prototype.split('-')`: every maximal run between
dashes, keeping empty pieces (`''.split('-')` is `['']`). -/
def splitOnDash : List Char → List (List Char)
  | [] => [[]]
  | c :: rest =>
    let r := splitOnDash rest
    if c = '-' then [] :: r
    else
      match r with
      | [] => [[c]]
      | h :: t => (c :: h) :: t

/-- `range.replace(/bytes=/, '').split('-')`. -/
def rangeParts (s : String) : List (List Char) :=
  splitOnDash (removeFirst "bytes=".toList s.toList)

/-- `const start = parseInt(parts[0], 10)`; `none` models `NaN`. -/
def parseStart (s : String) : Option ℤ :=
  jsParseInt ((rangeParts s).headD [])

/-- `const end = parts[1] ? parseInt(parts[1], 10) : fileSize - 1` — a
missing or empty (falsy) second part defaults to `fileSize - 1`. -/
def parseEnd (s : String) (fileSize : ℕ) : Option ℤ :=
  match (rangeParts s)[1]? with
  | none => some ((fileSize : ℤ) - 1)
  | some t => if t = [] then some ((fileSize : ℤ) - 1) else jsParseInt t

/-- The `extension → MIME` table of `getContentType`. -/
def mimeTypesTable : List (String × String) :=
  [(".mp4", "video/mp4"), (".webm", "video/webm"), (".mov", "video/quicktime"),
   (".avi", "video/x-msvideo"), (".mkv", "video/x-matroska"), (".m4v", "video/mp4")]

/-- `path.extname(filepath).toLowerCase()`: the suffix of the last path
segment from its last dot (empty when there is no dot or the only dot leads
a hidden-file name), lowercased. -/
def extnameLower (filepath : String) : String :=
  let base := ((filepath.splitOn "/").getLastD "").toList
  let rev := base.reverse
  if rev.contains '.' then
    let suffix := rev.takeWhile (fun c => c ≠ '.')
    if suffix.length + 1 = base.length then ""
    else String.toLower (String.mk ('.' :: suffix.reverse))
  else ""

/-- The fallback of `getContentType`: table lookup by extension, else the
generic `video/mp4`. -/
def contentTypeFromPath (filepath : String) : String :=
  match mimeTypesTable.find? (fun p => p.1 == extnameLower filepath) with
  | some p => p.2
  | none => "video/mp4"

/-- `getContentType(mimetype, filepath)`: the stored mimetype if truthy,
else the extension table / generic fallback. -/
def getContentType (mimetype : Option String) (filepath : String) : String :=
  match mimetype with
  | some m => if m = "" then contentTypeFromPath filepath else m
  | none => contentTypeFromPath filepath

/-- How `streamVideo(req, res, video)` ends.  `ranged206` and `full200`
carry the headers written (`Content-Range` components, `Accept-Ranges`,
`Content-Length`, `Content-Type`) and the bytes actually piped;
`rangeError` is the synchronous `ERR_OUT_OF_RANGE` throw of
`fs.createReadStream` when `start`/`end` are not integers with
`0 ≤ start ≤ end` (in particular when either parsed to `NaN`) — it happens
before any response is written, so no 200/206/416 is produced. -/
inductive StreamOutcome
  | fileNotFound
  | notSatisfiable (fileSize : ℕ)
  | ranged206 (rangeStart rangeEnd : ℤ) (fileSize : ℕ) (acceptRanges : String)
      (contentLength : ℤ) (contentType : String) (body : List ℕ)
  | full200 (contentLength : ℕ) (acceptRanges : String) (contentType : String)
      (body : List ℕ)
  | rangeError (rangeStart rangeEnd : Option ℤ)
deriving DecidableEq, Repr

/-- `streamingService.streamVideo`: the backing file is `none` when
`fs.existsSync` fails, otherwise its byte contents.  An empty `Range`
header is falsy and serves the whole file.  The 416 guard is
`start >= fileSize`, which is false when `start` is `NaN`.  A created read
stream delivers the bytes from `start` through `end` but no further than
end-of-file. -/
def streamVideoService (file : Option (List ℕ)) (mimetype : Option String)
    (filepath : String) (rangeHeader : Option String) : StreamOutcome :=
  match file with
  | none => .fileNotFound
  | some bytes =>
    let fileSize := bytes.length
    let contentType := getContentType mimetype filepath
    let serveFull : StreamOutcome := .full200 fileSize "bytes" contentType bytes
    match rangeHeader with
    | none => serveFull
    | some range =>
      if range = "" then serveFull
      else
        let startPos := parseStart range
        let endPos := parseEnd range fileSize
        if (match startPos with
          | some s => decide ((fileSize : ℤ) ≤ s)
          | none => false) then
          .notSatisfiable fileSize
        else
          match startPos, endPos with
          | some s, some e =>
            if 0 ≤ s ∧ s ≤ e then
              .ranged206 s e fileSize "bytes" (e - s + 1) contentType
                ((bytes.drop s.toNat).take (e - s + 1).toNat)
            else .rangeError (some s) (some e)
          | st, en => .rangeError st en

/-- `video.mimetype || 'video/mp4'` of `downloadVideo`. -/
def mimeOrDefault (mimetype : Option String) : String :=
  match mimetype with
  | some m => if m = "" then "video/mp4" else m
  | none => "video/mp4"

/-- How `downloadVideo(req, res, video)` ends. -/
inductive DownloadOutcome
  | fileNotFound
  | ok (contentType : String) (contentDisposition : String)
      (contentLength : ℕ) (body : List ℕ)
deriving DecidableEq, Repr

/-- `streamingService.downloadVideo`: 404 when the file is gone, else a 200
with attachment headers (`Content-Length` is `stat.size`) and the whole
file piped.  There is no readiness check here. -/
def downloadVideoService (file : Option (List ℕ)) (mimetype : Option String)
    (originalName : String) : DownloadOutcome :=
  match file with
  | none => .fileNotFound
  | some bytes =>
    .ok (mimeOrDefault mimetype)
      ("attachment; filename=\"" ++ originalName ++ "\"") bytes.length bytes

/-! ## Video controllers (`src/unnamed/part_012`) -/

/-- The requesting user, as read by the access-control methods. -/
structure UserRec where
  id : ℕ
  role : String
  organization : String
deriving DecidableEq, Repr

/-- One `sharedWith` entry (`permission` is `'view'` or `'edit'`). -/
structure ShareEntry where
  user : ℕ
  permission : String
deriving DecidableEq, Repr

/-- The controller-level view of a video record: the fields read by access
control and by the streaming/download services. -/
structure VideoRec where
  id : ℕ
  uploadedBy : ℕ
  organization : String
  visibility : String
  sharedWith : List ShareEntry
  status : VStatus
  mimetype : Option String
  originalName : String
  filepath : String
deriving DecidableEq, Repr

/-- `videoSchema.methods.isAccessibleBy(user)`. -/
def isAccessibleBy (v : VideoRec) (u : UserRec) : Bool :=
  if v.uploadedBy == u.id then true
  else if u.role == "admin" && v.organization == u.organization then true
  else if v.visibility == "public" then true
  else if v.visibility == "organization" && v.organization == u.organization then
    true
  else (v.sharedWith.find? (fun s => s.user == u.id)).isSome

/-- `videoSchema.methods.getPermissionLevel(user)`. -/
def getPermissionLevel (v : VideoRec) (u : UserRec) : String :=
  if v.uploadedBy == u.id then "owner"
  else if u.role == "admin" && v.organization == u.organization then "admin"
  else
    match v.sharedWith.find? (fun s => s.user == u.id) with
    | some s => s.permission
    | none =>
      if v.visibility == "public" || v.visibility == "organization" then "view"
      else "none"

/-- How a controller invocation ends: one of the error-middleware responses
(`NotFoundError` 404, `ForbiddenError` 403, `BadRequestError` 400) or a
delegated streaming/download response. -/
inductive ControllerResult
  | notFoundResp (message : String)
  | forbiddenResp (message : String)
  | badRequestResp (message : String)
  | streamed (o : StreamOutcome)
  | downloaded (o : DownloadOutcome)
deriving DecidableEq, Repr

/-- The `streamVideo` controller: 404 when lookup fails, 403 without
access, 400 (`BadRequestError`) while `status !== 'completed'`, else the
streaming service runs. -/
def streamVideoController (video : Option VideoRec) (u : UserRec)
    (file : Option (List ℕ)) (rangeHeader : Option String) : ControllerResult :=
  match video with
  | none => .notFoundResp "Video not found"
  | some v =>
    if isAccessibleBy v u = false then
      .forbiddenResp "You do not have access to this video"
    else if v.status ≠ VStatus.completed then
      .badRequestResp "Video is still processing and not ready for streaming"
    else .streamed (streamVideoService file v.mimetype v.filepath rangeHeader)

/-- The `downloadVideo` controller: 404 when lookup fails, 403 unless the
permission level is owner/admin/edit, else the download service runs —
with no check of `status` anywhere on this path. -/
def downloadVideoController (video : Option VideoRec) (u : UserRec)
    (file : Option (List ℕ)) : ControllerResult :=
  match video with
  | none => .notFoundResp "Video not found"
  | some v =>
    if getPermissionLevel v u = "owner" ∨ getPermissionLevel v u = "admin" ∨
        getPermissionLevel v u = "edit" then
      .downloaded (downloadVideoService file v.mimetype v.originalName)
    else .forbiddenResp "You do not have permission to download this video"

/-- A 1000-byte backing file for concrete range requests. -/
def demoFile1000 : List ℕ := List.range 1000

/-- A video record still in processing, owned by user 7. -/
def demoProcessingVideo : VideoRec :=
  { id := 1
    uploadedBy := 7
    organization := "acme"
    visibility := "private"
    sharedWith := []
    status := VStatus.processing
    mimetype := some "video/mp4"
    originalName := "clip.mp4"
    filepath := "/uploads/clip.mp4" }

/-- The owner of `demoProcessingVideo`. -/
def demoOwner : UserRec := { id := 7, role := "editor", organization := "acme" }

/-- Ten bytes of backing file for the download counterexample. -/
def demoFileBytes : List ℕ := [0, 1, 2, 3, 4, 5, 6, 7, 8, 9]


/-! ## Claims C5 and C4 -- classifier formulas -/

/-- C5: the computed overall sensitivity score equals
round(0.6 * max + 0.4 * mean) over the five category scores. -/
theorem overallScore_matches_spec_formula (r : SensDetails) :
    calculateOverallScore r =
      jsRound ((6/10) * (maxCatScore r : ℚ) + (4/10) * meanCatScore r) := by
  unfold calculateOverallScore maxCatScore meanCatScore jsRound
  simp [scoresList]
  ring_nf

/-- C4: for category scores in `[0,100]`, the classifier flags iff some
category meets its threshold (violence 70, adult 70, hate 60, drugs 60,
language 80) or the overall score meets the overall threshold 65. -/
theorem flagged_iff_threshold_exceeded (cs : CatScores)
    (hv : cs.violence ≤ 100) (ha : cs.adult ≤ 100) (hh : cs.hate ≤ 100)
    (hd : cs.drugs ≤ 100) (hl : cs.language ≤ 100) :
    (determineSensitivityStatus (initDetails cs)
        (calculateOverallScore (initDetails cs))).1 = SStatus.flagged ↔
      (70 ≤ cs.violence ∨ 70 ≤ cs.adult ∨ 60 ≤ cs.hate ∨ 60 ≤ cs.drugs ∨
        80 ≤ cs.language ∨ 65 ≤ calculateOverallScore (initDetails cs)) := by
  unfold determineSensitivityStatus thresholds overallThreshold initDetails
  split_ifs <;> simp_all

/-- Witness for C4 at concrete scores (violence 80 exceeds its threshold). -/
theorem flagged_iff_threshold_exceeded_check :
    (determineSensitivityStatus (initDetails ⟨80, 10, 10, 10, 10⟩)
        (calculateOverallScore (initDetails ⟨80, 10, 10, 10, 10⟩))).1 =
      SStatus.flagged :=
  (flagged_iff_threshold_exceeded ⟨80, 10, 10, 10, 10⟩
      (by decide) (by decide) (by decide) (by decide) (by decide)).2
    (Or.inl (by decide))

/-! ## Claim C1 — event publication vs. persistence order -/

/-- C1 counterexample: in a successful run, the checkpoint-10 progress event
is published at trace index 0, before the checkpoint-10 store write at index
1 — the publish precedes the store write, contrary to the claim. -/
theorem publish_precedes_persist_at_checkpoint_10 :
    idxOfP (isProgressPublish 10) demoTrace = 0 ∧
      idxOfP (isPersistAt 10) demoTrace = 1 := by
  constructor <;> rfl

/-- C1 (amended): at checkpoints 10, 30, 50, 70, 90 and 92 the progress
event is published immediately before (not after) the persistence of that
checkpoint, and only at checkpoint 100 does the publish follow the
persistence of the completed document. -/
theorem checkpoint_publish_persist_order (meta : ProbeVals)
    (thumb : Option String) (cs : CatScores) (d : VideoDoc) :
    (idxOfP (isProgressPublish 10) (processVideoAsyncRun (.run .ok) meta thumb cs d).2 <
      idxOfP (isPersistAt 10) (processVideoAsyncRun (.run .ok) meta thumb cs d).2) ∧
    (idxOfP (isProgressPublish 30) (processVideoAsyncRun (.run .ok) meta thumb cs d).2 <
      idxOfP (isPersistAt 30) (processVideoAsyncRun (.run .ok) meta thumb cs d).2) ∧
    (idxOfP (isProgressPublish 50) (processVideoAsyncRun (.run .ok) meta thumb cs d).2 <
      idxOfP (isPersistAt 50) (processVideoAsyncRun (.run .ok) meta thumb cs d).2) ∧
    (idxOfP (isProgressPublish 70) (processVideoAsyncRun (.run .ok) meta thumb cs d).2 <
      idxOfP (isPersistAt 70) (processVideoAsyncRun (.run .ok) meta thumb cs d).2) ∧
    (idxOfP (isProgressPublish 90) (processVideoAsyncRun (.run .ok) meta thumb cs d).2 <
      idxOfP (isPersistAt 90) (processVideoAsyncRun (.run .ok) meta thumb cs d).2) ∧
    (idxOfP (isProgressPublish 92) (processVideoAsyncRun (.run .ok) meta thumb cs d).2 <
      idxOfP (isPersistAt 92) (processVideoAsyncRun (.run .ok) meta thumb cs d).2) ∧
    (idxOfP (isPersistAt 100) (processVideoAsyncRun (.run .ok) meta thumb cs d).2 <
      idxOfP (isProgressPublish 100) (processVideoAsyncRun (.run .ok) meta thumb cs d).2) := by
  simp [processVideoAsyncRun, processVideoRun, analyzeVideoRun, updateProgressDoc,
    idxOfP, isProgressPublish, isPersistAt]

/-! ## Claim C6 — fatal failure handling -/

/-- C6 counterexample: when the classifier throws during the analysis stage,
the run publishes the `processing:error` event twice (once from the analysis
stage catch handler, once from the pipeline-level catch handler), not
exactly once. -/
theorem classifier_throw_publishes_two_error_events :
    errorEventCount (processVideoAsyncRun
      (.run (.classifierThrow "Analysis API unavailable"))
      demoMeta (some "thumb.jpg") demoScores (initDoc 1)).2 = 2 := by
  rfl

/-- C6 (amended): every fatal pipeline error ends the run with
`status = failed`, `errorMessage` holding the cause, and
`processingMessage = "Processing failed: <cause>"`; a failure raised in the
processing stage (missing source file, a progress save rejecting) publishes
exactly one `processing:error` event, while a failure raised inside the
sensitivity-analysis stage (classifier throw, completion save rejecting)
publishes it twice — once in the analysis catch handler and once in the
pipeline catch handler. -/
theorem fatal_error_final_state_and_events (meta : ProbeVals)
    (thumb : Option String) (cs : CatScores) (msg : String) (d : VideoDoc) :
    ((processVideoAsyncRun .fileMissing meta thumb cs d).1.status = VStatus.failed ∧
      (processVideoAsyncRun .fileMissing meta thumb cs d).1.errorMessage =
        some "Video file not found" ∧
      (processVideoAsyncRun .fileMissing meta thumb cs d).1.processingMessage =
        "Processing failed: Video file not found" ∧
      errorEventCount (processVideoAsyncRun .fileMissing meta thumb cs d).2 = 1) ∧
    ((processVideoAsyncRun (.progressSaveFail msg) meta thumb cs d).1.status = VStatus.failed ∧
      (processVideoAsyncRun (.progressSaveFail msg) meta thumb cs d).1.errorMessage = some msg ∧
      (processVideoAsyncRun (.progressSaveFail msg) meta thumb cs d).1.processingMessage =
        "Processing failed: " ++ msg ∧
      errorEventCount (processVideoAsyncRun (.progressSaveFail msg) meta thumb cs d).2 = 1) ∧
    ((processVideoAsyncRun (.run (.classifierThrow msg)) meta thumb cs d).1.status = VStatus.failed ∧
      (processVideoAsyncRun (.run (.classifierThrow msg)) meta thumb cs d).1.errorMessage = some msg ∧
      (processVideoAsyncRun (.run (.classifierThrow msg)) meta thumb cs d).1.processingMessage =
        "Processing failed: " ++ msg ∧
      errorEventCount (processVideoAsyncRun (.run (.classifierThrow msg)) meta thumb cs d).2 = 2) ∧
    ((processVideoAsyncRun (.run (.completionSaveFail msg)) meta thumb cs d).1.status = VStatus.failed ∧
      (processVideoAsyncRun (.run (.completionSaveFail msg)) meta thumb cs d).1.errorMessage = some msg ∧
      (processVideoAsyncRun (.run (.completionSaveFail msg)) meta thumb cs d).1.processingMessage =
        "Processing failed: " ++ msg ∧
      errorEventCount (processVideoAsyncRun (.run (.completionSaveFail msg)) meta thumb cs d).2 = 2) := by
  simp [processVideoAsyncRun, processVideoRun, analyzeVideoRun, updateProgressDoc,
    errorEventCount, List.countP, List.countP.go]


/-! ## Claim C7 -- progress/status over reachable states -/

/-- Every snapshot the analysis stage persists satisfies the corrected
progress/status relationship. -/
theorem analyze_persisted_inv (af : AnalyzeFate) (cs : CatScores)
    (d : VideoDoc) :
    ∀ d' ∈ persistedDocs (analyzeVideoRun af cs d).2.1, ProgressStatusInv d' := by
  cases af <;>
    simp [analyzeVideoRun, updateProgressDoc, persistedDocs, ProgressStatusInv]

/-- Every snapshot a background processing run persists satisfies the
corrected progress/status relationship. -/
theorem pipeline_persisted_inv (pf : PipelineFate) (meta : ProbeVals)
    (thumb : Option String) (cs : CatScores) (d : VideoDoc) :
    ∀ d' ∈ persistedDocs (processVideoAsyncRun pf meta thumb cs d).2,
      ProgressStatusInv d' := by
  cases pf with
  | fileMissing =>
    simp [processVideoAsyncRun, processVideoRun, updateProgressDoc,
      persistedDocs, ProgressStatusInv]
  | progressSaveFail msg =>
    simp [processVideoAsyncRun, processVideoRun, updateProgressDoc,
      persistedDocs, ProgressStatusInv]
  | run af =>
    cases af <;>
      simp [processVideoAsyncRun, processVideoRun, analyzeVideoRun,
        updateProgressDoc, persistedDocs, ProgressStatusInv]

/-- Every snapshot a reanalysis run persists satisfies the corrected
progress/status relationship. -/
theorem reanalyze_persisted_inv (af : AnalyzeFate) (cs : CatScores)
    (d : VideoDoc) :
    ∀ d' ∈ persistedDocs (reanalyzeRun af cs d).2, ProgressStatusInv d' := by
  cases af <;>
    simp [reanalyzeRun, analyzeVideoRun, updateProgressDoc, persistedDocs,
      ProgressStatusInv]

/-- C7 (amended): in every reachable store state, `status = completed`
implies `progressPercent = 100`, and `progressPercent = 100` implies the
status is `completed` or `failed`.  The unqualified iff of the original
claim fails: see `reachable_failed_with_full_progress`. -/
theorem reachable_progress_status (d : VideoDoc) (h : Reachable d) :
    ProgressStatusInv d := by
  induction h with
  | init id => simp [initDoc, ProgressStatusInv]
  | run pf meta thumb cs _ hmem _ => exact pipeline_persisted_inv _ _ _ _ _ _ hmem
  | rerun af cs _ hmem _ => exact reanalyze_persisted_inv _ _ _ _ hmem

/-- Witness for C7: the invariant holds at the freshly created upload
document. -/
theorem reachable_progress_status_check : ProgressStatusInv (initDoc 1) :=
  reachable_progress_status (initDoc 1) (Reachable.init 1)

/-- C7 counterexample: when the completion `save()` of the analysis stage
rejects, the catch handlers persist a document with `status = failed` while
the in-memory `processingProgress` is already 100, so a reachable store
state has progress 100 without being completed -- refuting the claimed iff. -/
theorem reachable_failed_with_full_progress :
    Reachable failedAt100Doc ∧ failedAt100Doc.processingProgress = 100 ∧
      failedAt100Doc.status = VStatus.failed := by
  refine ⟨Reachable.run (.run (.completionSaveFail "Database connection lost"))
    demoMeta (some "thumb.jpg") demoScores (Reachable.init 1) ?_, by rfl, by rfl⟩
  simp [failedAt100Doc, processVideoAsyncRun, processVideoRun, analyzeVideoRun,
    updateProgressDoc, persistedDocs, demoMeta, demoScores, initDoc]

/-! ## Claim C8 -- reanalysis preserves technical metadata -/

/-- C8: reanalysis of a completed asset first persists the reset document
(`sensitivityStatus = pending`, `status = analyzing`), and every snapshot it
persists -- and the final document -- keeps `duration`, `resolution` and
`thumbnail` exactly as they were; only classification runs again. -/
theorem reanalysis_preserves_metadata (af : AnalyzeFate) (cs : CatScores)
    (d : VideoDoc) (h : d.status = VStatus.completed) :
    (match (persistedDocs (reanalyzeRun af cs d).2).head? with
      | some d0 => d0.sensitivityStatus = SStatus.pending ∧
          d0.status = VStatus.analyzing
      | none => False) ∧
    (∀ d' ∈ persistedDocs (reanalyzeRun af cs d).2,
      d'.duration = d.duration ∧ d'.resolutionWidth = d.resolutionWidth ∧
        d'.resolutionHeight = d.resolutionHeight ∧ d'.thumbnail = d.thumbnail) ∧
    ((reanalyzeRun af cs d).1.duration = d.duration ∧
      (reanalyzeRun af cs d).1.resolutionWidth = d.resolutionWidth ∧
      (reanalyzeRun af cs d).1.resolutionHeight = d.resolutionHeight ∧
      (reanalyzeRun af cs d).1.thumbnail = d.thumbnail) := by
  refine ⟨?_, ?_, ?_⟩
  case _ =>
    cases af <;> simp [reanalyzeRun, analyzeVideoRun, updateProgressDoc, persistedDocs]
  case _ =>
    cases af <;>
      simp [reanalyzeRun, analyzeVideoRun, updateProgressDoc, persistedDocs]
  case _ =>
    cases af <;> simp [reanalyzeRun, analyzeVideoRun, updateProgressDoc]

/-- Witness for C8 at the final document of a successful run (which is
completed): reanalysis keeps its duration and thumbnail. -/
theorem reanalysis_preserves_metadata_check :
    demoCompletedDoc.status = VStatus.completed ∧
      (reanalyzeRun .ok demoScores demoCompletedDoc).1.duration =
        demoCompletedDoc.duration ∧
      (reanalyzeRun .ok demoScores demoCompletedDoc).1.thumbnail =
        demoCompletedDoc.thumbnail := by
  have hc : demoCompletedDoc.status = VStatus.completed := by rfl
  have hp := reanalysis_preserves_metadata .ok demoScores demoCompletedDoc hc
  exact ⟨hc, hp.2.2.1, hp.2.2.2.2.2⟩


/-! ## Claim C9 -- probe failure behavior -/

/-- C9 counterexample: on a non-zero exit the resolved record leaves the
`fps` (frame rate) key absent — reading it yields `undefined`, not `null`
as the claim states for all metadata fields. -/
theorem probe_failure_fps_not_null :
    (getVideoMetadata (.close 1 none)).fps = FpsVal.missing ∧
      (getVideoMetadata (.close 1 none)).fps ≠ FpsVal.null := by
  constructor <;> decide

/-- C9 (amended): the probe is total (the promise always resolves) and on
every failure — tool missing, non-zero exit, unparseable output — it
resolves with the fixed record whose `duration`, `width`, `height`,
`bitrate` and `codec` are `null` and whose frame-rate field is absent
(`undefined`), never raising. -/
theorem probe_failure_returns_basic_record (ev : ProbeEvent)
    (h : probeFailed ev) : getVideoMetadata ev = failureMetadata := by
  cases ev with
  | spawnError => rfl
  | close code parsed =>
    rcases h with h | h
    · simp [getVideoMetadata, h]
    · subst h
      simp [getVideoMetadata]

/-- Witness for C9 at malformed tool output (exit 0, `JSON.parse` throws). -/
theorem probe_failure_returns_basic_record_check :
    getVideoMetadata (.close 0 none) = failureMetadata :=
  probe_failure_returns_basic_record (.close 0 none) (Or.inr rfl)

/-! ## Claim C3 -- byte-range responses -/

/-- C3 counterexample: for the 1000-byte file and `Range: bytes=200-1999`,
the code answers 206 declaring `Content-Range: bytes 200-1999/1000` and
`Content-Length: 1800`, but the piped body stops at end-of-file after 800
bytes — not the declared 1800-byte span. -/
theorem range_past_eof_truncated_body :
    streamVideoService (some demoFile1000) (some "video/mp4") "/uploads/v.mp4"
        (some "bytes=200-1999") =
      .ranged206 200 1999 1000 "bytes" 1800 "video/mp4"
        ((demoFile1000.drop 200).take 1800) ∧
    ((demoFile1000.drop 200).take 1800).length = 800 ∧ (800 : ℕ) ≠ 1800 := by
  refine ⟨by decide, by simp [demoFile1000], by decide⟩

/-- C3 (amended): with no `Range` header the stream responds 200 with
`Content-Length = fileSize`, `Accept-Ranges: bytes` and the whole file; a
missing or empty end part defaults to `fileSize - 1`; a numeric start at or
past the file size yields 416 carrying the true file size; and for a
numeric range with `0 ≤ start ≤ end < fileSize` it responds 206 with
`Content-Range: bytes start-end/fileSize`, `Accept-Ranges: bytes`,
`Content-Length = end - start + 1`, and a body of exactly that byte span.
(For `end ≥ fileSize` the body is truncated at end-of-file while the
headers still declare `end - start + 1` bytes — see
`range_past_eof_truncated_body` — and a start past the end throws at
read-stream creation.) -/
theorem range_stream_responses (bytes : List ℕ) (mimetype : Option String)
    (filepath : String) (range : String) (s e : ℤ) :
    (streamVideoService (some bytes) mimetype filepath none =
      .full200 bytes.length "bytes" (getContentType mimetype filepath) bytes) ∧
    ((rangeParts range)[1]? = none ∨ (rangeParts range)[1]? = some [] →
      parseEnd range bytes.length = some ((bytes.length : ℤ) - 1)) ∧
    (range ≠ "" → parseStart range = some s → (bytes.length : ℤ) ≤ s →
      streamVideoService (some bytes) mimetype filepath (some range) =
        .notSatisfiable bytes.length) ∧
    (range ≠ "" → parseStart range = some s →
      parseEnd range bytes.length = some e →
      0 ≤ s → s < (bytes.length : ℤ) → s ≤ e → e < (bytes.length : ℤ) →
      streamVideoService (some bytes) mimetype filepath (some range) =
        .ranged206 s e bytes.length "bytes" (e - s + 1)
          (getContentType mimetype filepath)
          ((bytes.drop s.toNat).take (e - s + 1).toNat) ∧
      ((bytes.drop s.toNat).take (e - s + 1).toNat).length = (e - s + 1).toNat) := by
  refine ⟨rfl, ?_, ?_, ?_⟩
  · intro hcase
    rcases hcase with h | h <;> simp [parseEnd, h]
  · intro hne hs hge
    simp [streamVideoService, hne, hs, hge]
  · intro hne hs he h0 hlt hle hend
    have hguard : ¬ ((bytes.length : ℤ) ≤ s) := not_le.mpr hlt
    refine ⟨?_, ?_⟩
    · simp [streamVideoService, hne, hs, he, hguard, h0, hle]
    · rw [List.length_take, List.length_drop]
      omega

/-- Witness for C3: on the concrete 1000-byte file, `bytes=200-299` gives
206 with `Content-Range: bytes 200-299/1000` and a 100-byte body,
`bytes=2000-` gives 416 reporting size 1000, and no header gives the full
200 response. -/
theorem range_stream_responses_check :
    (streamVideoService (some demoFile1000) (some "video/mp4") "/uploads/v.mp4"
        (some "bytes=200-299") =
      .ranged206 200 299 1000 "bytes" 100 "video/mp4"
        ((demoFile1000.drop 200).take 100)) ∧
    ((demoFile1000.drop 200).take 100).length = 100 ∧
    (streamVideoService (some demoFile1000) (some "video/mp4") "/uploads/v.mp4"
        (some "bytes=2000-") = .notSatisfiable 1000) ∧
    (streamVideoService (some demoFile1000) (some "video/mp4") "/uploads/v.mp4"
        none = .full200 1000 "bytes" "video/mp4" demoFile1000) := by
  have h206 := (range_stream_responses demoFile1000 (some "video/mp4")
    "/uploads/v.mp4" "bytes=200-299" 200 299).2.2.2
    (by decide) (by rfl) (by rfl) (by decide) (by decide) (by decide) (by decide)
  have h416 := (range_stream_responses demoFile1000 (some "video/mp4")
    "/uploads/v.mp4" "bytes=2000-" 2000 0).2.2.1
    (by decide) (by rfl) (by decide)
  have h200 := (range_stream_responses demoFile1000 (some "video/mp4")
    "/uploads/v.mp4" "bytes=0-1" 0 0).1
  exact ⟨h206.1, h206.2, h416, h200⟩

/-! ## Claim C10 -- non-numeric range start -/

/-- C10: whenever the first range part is not numeric (for example the
HTTP suffix form `bytes=-500`, whose first part is the empty string), the
parsed start is `NaN`, the `start >= fileSize` guard compares false, and
the call reaches `fs.createReadStream` with a `NaN` start — which throws —
so none of the specified 200/206/416 responses is produced. -/
theorem nan_start_reaches_stream_creation (bytes : List ℕ)
    (mimetype : Option String) (filepath : String) (range : String)
    (hne : range ≠ "") (hnan : parseStart range = none) :
    streamVideoService (some bytes) mimetype filepath (some range) =
      .rangeError none (parseEnd range bytes.length) := by
  cases hE : parseEnd range bytes.length <;>
    simp [streamVideoService, hne, hnan, hE]

/-- Witness for C10 at the suffix form `bytes=-500`: `parseInt('')` is
`NaN`, so the call ends in the read-stream creation throw. -/
theorem nan_start_reaches_stream_creation_check :
    streamVideoService (some demoFile1000) (some "video/mp4") "/uploads/v.mp4"
        (some "bytes=-500") =
      .rangeError none (parseEnd "bytes=-500" demoFile1000.length) :=
  nan_start_reaches_stream_creation demoFile1000 (some "video/mp4")
    "/uploads/v.mp4" "bytes=-500" (by decide) (by rfl)

/-! ## Claim C2 -- readiness gating of stream and download -/

/-- C2 counterexample: the download controller serves the full file of an
asset whose status is `processing` (owner request, file present) — it
performs no readiness check, so the download path does not refuse non-ready
assets as claimed. -/
theorem download_serves_processing_asset :
    demoProcessingVideo.status = VStatus.processing ∧
      downloadVideoController (some demoProcessingVideo) demoOwner
          (some demoFileBytes) =
        ControllerResult.downloaded (.ok "video/mp4"
          "attachment; filename=\"clip.mp4\"" 10 demoFileBytes) := by
  constructor <;> rfl

/-- C2 (amended): for an accessible asset with any non-`completed` status,
the stream endpoint refuses with the precondition-failed (400) response and
serves no bytes; the download endpoint, however, has no readiness check and
serves the file bytes to any caller with owner/admin/edit permission
regardless of status. -/
theorem stream_gated_but_download_not (v : VideoRec) (u : UserRec)
    (file : Option (List ℕ)) (rangeHeader : Option String) (bytes : List ℕ)
    (hacc : isAccessibleBy v u = true) (hst : v.status ≠ VStatus.completed)
    (hperm : getPermissionLevel v u = "owner" ∨
      getPermissionLevel v u = "admin" ∨ getPermissionLevel v u = "edit") :
    streamVideoController (some v) u file rangeHeader =
      .badRequestResp "Video is still processing and not ready for streaming" ∧
    downloadVideoController (some v) u (some bytes) =
      .downloaded (.ok (mimeOrDefault v.mimetype)
        ("attachment; filename=\"" ++ v.originalName ++ "\"") bytes.length bytes) := by
  constructor
  · simp [streamVideoController, hacc, hst]
  · simp [downloadVideoController, hperm, downloadVideoService]

/-- Witness for C2 on the concrete processing asset and its owner. -/
theorem stream_gated_but_download_not_check :
    streamVideoController (some demoProcessingVideo) demoOwner
        (some demoFileBytes) none =
      .badRequestResp "Video is still processing and not ready for streaming" ∧
    downloadVideoController (some demoProcessingVideo) demoOwner
        (some demoFileBytes) =
      .downloaded (.ok (mimeOrDefault demoProcessingVideo.mimetype)
        ("attachment; filename=\"" ++ demoProcessingVideo.originalName ++ "\"")
        demoFileBytes.length demoFileBytes) :=
  stream_gated_but_download_not demoProcessingVideo demoOwner
    (some demoFileBytes) none demoFileBytes (by decide) (by decide)
    (Or.inl (by decide))

end Pulse
